import Mathlib

/-!
Shallow embedding of the snap-microstack deployment step orchestration engine:
the plan runner in sunbeam/commands/bootstrap.py, the cluster steps in
sunbeam/commands/clusterd.py, the error-translation layer in
sunbeam/microstackd/service.py and the convergence polling helpers in
sunbeam/commands/juju.py.

Python exceptions are modelled as an explicit error type threaded through
Except; the outcome of each remote call is a parameter of the function that
makes it, so that a step's control flow on every outcome of its collaborators
is the object of study.
-/

namespace Sunbeam

/-- Python exceptions that appear in the sources: the four classified remote
faults raised in service.py's error translation, the raw transport error
(requests HTTPError) that is re-raised when no rule matches, the
TerraformException caught in bootstrap.py, and the builtin errors that the
code can raise (each carries the text that str(e) renders; NameError carries
the undefined name). -/
inductive PyExc where
  | NodeAlreadyExistsException (msg : String)
  | NodeJoinException (msg : String)
  | TokenAlreadyGeneratedException (msg : String)
  | ClusterServiceUnavailableException (msg : String)
  | HTTPError (msg : String)
  | TerraformException (msg : String)
  | NameError (msg : String)
  | AttributeError (msg : String)
  | ClickException (msg : String)
  | otherError (msg : String)
deriving DecidableEq, Repr

/-- str(e) of a modelled exception: the message it was constructed with. -/
def PyExc.str : PyExc → String
  | .NodeAlreadyExistsException m => m
  | .NodeJoinException m => m
  | .TokenAlreadyGeneratedException m => m
  | .ClusterServiceUnavailableException m => m
  | .HTTPError m => m
  | .TerraformException m => m
  | .NameError m => m
  | .AttributeError m => m
  | .ClickException m => m
  | .otherError m => m

/-- Python substring containment (the `in` operator on str), as infix of the
character lists. -/
def strContains (pat s : String) : Bool :=
  decide (pat.data <:+: s.data)

/-- Error translation of BaseService._request (service.py lines 84-105): on a
non-2xx response the decoded JSON error field is matched, in order, against
four fixed substrings; the first match raises the corresponding classified
exception with a fixed message, and if no rule matches the raw transport
error (the HTTPError from raise_for_status) is re-raised unchanged. -/
def request_onError (rawError : String) (error : String) : PyExc :=
  if strContains "remote with name" error then
    PyExc.NodeAlreadyExistsException "Already node exists in the microstack cluster"
  else if strContains "Failed to join cluster with the given join token" error then
    PyExc.NodeJoinException "Join node to cluster failed with the given token"
  else if strContains "UNIQUE constraint failed: internal_token_records.name" error then
    PyExc.TokenAlreadyGeneratedException "Token already generated for the node"
  else if strContains "Daemon not yet initialized" error then
    PyExc.ClusterServiceUnavailableException "Microstack Cluster not initialized"
  else
    PyExc.HTTPError rawError

/-- Modelled from the spec: the closed taxonomy of classified fault kinds
named in section 7 of the specification. -/
inductive FaultKind where
  | NodeAlreadyExists
  | NodeJoinFailed
  | TokenAlreadyIssued
  | ClusterServiceUnavailable
deriving DecidableEq, Repr

/-- Modelled from the spec: the fixed ordered table of substring rules of
sections 4.2 and 7 mapping remote error text to a fault kind. -/
def specErrorTable : List (String × FaultKind) :=
  [("remote with name", FaultKind.NodeAlreadyExists),
   ("Failed to join cluster with the given join token", FaultKind.NodeJoinFailed),
   ("UNIQUE constraint failed: internal_token_records.name", FaultKind.TokenAlreadyIssued),
   ("Daemon not yet initialized", FaultKind.ClusterServiceUnavailable)]

/-- Modelled from the spec: first-match-wins lookup in an ordered rule
table of substrings. -/
def firstMatch : List (String × FaultKind) → String → Option FaultKind
  | [], _ => none
  | (pat, k) :: rest, e => if strContains pat e then some k else firstMatch rest e

/-- The fault kind a raised exception belongs to, none for anything outside
the closed taxonomy. -/
def kindOf : PyExc → Option FaultKind
  | .NodeAlreadyExistsException _ => some FaultKind.NodeAlreadyExists
  | .NodeJoinException _ => some FaultKind.NodeJoinFailed
  | .TokenAlreadyGeneratedException _ => some FaultKind.TokenAlreadyIssued
  | .ClusterServiceUnavailableException _ => some FaultKind.ClusterServiceUnavailable
  | _ => none

/-- Modelled from the spec: the tagged outcome kinds of a Step
(sunbeam.jobs.common.ResultType is imported by every command module but its
module is not part of the sources; section 3 of the specification fixes the
three tags). -/
inductive ResultType where
  | COMPLETED
  | SKIPPED
  | FAILED
deriving DecidableEq, Repr

/-- Modelled from the spec: a Step outcome, a tag with an optional message
(sunbeam.jobs.common.Result; the absent message is modelled as the empty
string). -/
structure Result where
  result_type : ResultType
  message : String := ""
deriving DecidableEq, Repr

/-- A member of the cluster as returned by get_cluster_members: the code
reads the name field of each returned mapping. -/
structure ClusterMember where
  name : String
  address : String := ""
deriving DecidableEq, Repr

/-- The member names extracted in each is_skip method
(member.get of the name key, clusterd.py lines 51, 93, 134). -/
def member_names (members : List ClusterMember) : List String :=
  members.map ClusterMember.name

/-- ClusterInitStep.is_skip (clusterd.py lines 43-58): probe the member list;
skip when this node's fqdn is already a member; a
ClusterServiceUnavailableException from the probe is caught and yields
False; any other exception propagates. The outcome of
get_cluster_members is the parameter. -/
def ClusterInitStep.is_skip (fqdn : String)
    (membersOutcome : Except PyExc (List ClusterMember)) : Except PyExc Bool :=
  match membersOutcome with
  | Except.ok members => Except.ok ((member_names members).contains fqdn)
  | Except.error (PyExc.ClusterServiceUnavailableException _) => Except.ok false
  | Except.error e => Except.error e

/-- ClusterInitStep.run (clusterd.py lines 60-69): bootstrap the cluster;
every exception is caught and converted to a FAILED Result carrying
str(e). -/
def ClusterInitStep.run (bootstrapOutcome : Except PyExc Unit) : Result :=
  match bootstrapOutcome with
  | Except.ok _ => { result_type := ResultType.COMPLETED }
  | Except.error e => { result_type := ResultType.FAILED, message := e.str }

/-- ClusterAddNodeStep.is_skip (clusterd.py lines 85-100): same probe keyed
on the name of the node to add. -/
def ClusterAddNodeStep.is_skip (node_name : String)
    (membersOutcome : Except PyExc (List ClusterMember)) : Except PyExc Bool :=
  match membersOutcome with
  | Except.ok members => Except.ok ((member_names members).contains node_name)
  | Except.error (PyExc.ClusterServiceUnavailableException _) => Except.ok false
  | Except.error e => Except.error e

/-- ClusterAddNodeStep.run (clusterd.py lines 102-111): mint a join token;
COMPLETED with the token as message on success, only
TokenAlreadyGeneratedException is caught (FAILED with str(e)); every other
exception propagates out of run. -/
def ClusterAddNodeStep.run (addNodeOutcome : Except PyExc String) :
    Except PyExc Result :=
  match addNodeOutcome with
  | Except.ok token => Except.ok { result_type := ResultType.COMPLETED, message := token }
  | Except.error (PyExc.TokenAlreadyGeneratedException m) =>
      Except.ok { result_type := ResultType.FAILED, message := m }
  | Except.error e => Except.error e

/-- ClusterJoinNodeStep.is_skip (clusterd.py lines 126-141): same probe keyed
on this node's fqdn. -/
def ClusterJoinNodeStep.is_skip (fqdn : String)
    (membersOutcome : Except PyExc (List ClusterMember)) : Except PyExc Bool :=
  match membersOutcome with
  | Except.ok members => Except.ok ((member_names members).contains fqdn)
  | Except.error (PyExc.ClusterServiceUnavailableException _) => Except.ok false
  | Except.error e => Except.error e

/-- ClusterJoinNodeStep.run (clusterd.py lines 143-156): join the cluster;
on a successful join the return expression names the undefined local
variable token (line 153, the field is self.token), so Python raises a
NameError, which the except clause (NodeAlreadyExistsException,
NodeJoinException) does not catch; those two classified faults are caught
and yield FAILED with str(e); every other exception propagates. -/
def ClusterJoinNodeStep.run (joinNodeOutcome : Except PyExc Unit) :
    Except PyExc Result :=
  match joinNodeOutcome with
  | Except.ok _ => Except.error (PyExc.NameError "token")
  | Except.error (PyExc.NodeAlreadyExistsException m) =>
      Except.ok { result_type := ResultType.FAILED, message := m }
  | Except.error (PyExc.NodeJoinException m) =>
      Except.ok { result_type := ResultType.FAILED, message := m }
  | Except.error e => Except.error e

/-- DeployControlPlaneStep.run (bootstrap.py lines 66-87): write tfvars, run
terraform apply, then wait until the model is active; a TerraformException
from either call is caught and converted to FAILED with str(e); any other
exception propagates. The outcomes of apply and of wait_until_active are
the parameters. -/
def DeployControlPlaneStep.run (applyOutcome waitOutcome : Except PyExc Unit) :
    Except PyExc Result :=
  match applyOutcome with
  | Except.error (PyExc.TerraformException m) =>
      Except.ok { result_type := ResultType.FAILED, message := m }
  | Except.error e => Except.error e
  | Except.ok _ =>
    match waitOutcome with
    | Except.error (PyExc.TerraformException m) =>
        Except.ok { result_type := ResultType.FAILED, message := m }
    | Except.error e => Except.error e
    | Except.ok _ => Except.ok { result_type := ResultType.COMPLETED }

/-- ModelStatusStep.run (juju.py lines 575-595): fetch the per-application
statuses, render one line per application, COMPLETED with those lines as
the message (the Python code passes the list itself; it is modelled as the
newline-joined text); any exception is caught and converted to FAILED with
str(e). -/
def ModelStatusStep.run (statusOutcome : Except PyExc (List (String × String))) :
    Result :=
  match statusOutcome with
  | Except.ok apps_status =>
      { result_type := ResultType.COMPLETED,
        message := String.intercalate "\n"
          (apps_status.map (fun p => "App " ++ p.1 ++ " is in " ++ p.2 ++ " state")) }
  | Except.error e => { result_type := ResultType.FAILED, message := e.str }

/-- What the runner records about one processed step in its progress
output. -/
inductive StepOutcome where
  | skipped
  | ran (r : Result)
deriving DecidableEq, Repr

/-- One progress line of the runner: the step's name, its description and
what happened to it. -/
structure StepEvent where
  name : String
  description : String
  outcome : StepOutcome
deriving DecidableEq, Repr

/-- A step as the runner sees it: its immutable identity and the outcomes
its is_skip and run calls would produce (an error is an exception the call
raises). -/
structure StepModel where
  name : String
  description : String
  is_skip : Except PyExc Bool
  run : Except PyExc Result

/-- The plan runner loop of the bootstrap command (bootstrap.py lines
167-186): for each step in list order, call is_skip; when it returns True,
record the step as skipped and continue without calling run; otherwise call
run, record the outcome, and when the Result is FAILED raise
ClickException with the Result's message, executing nothing further; an
exception raised by is_skip or run propagates and also ends the loop.
Returns the ordered progress events and the loop's outcome. -/
def runPlan : List StepModel → List StepEvent × Except PyExc Unit
  | [] => ([], Except.ok ())
  | s :: rest =>
    match s.is_skip with
    | Except.error e => ([], Except.error e)
    | Except.ok true =>
      let res := runPlan rest
      (⟨s.name, s.description, StepOutcome.skipped⟩ :: res.1, res.2)
    | Except.ok false =>
      match s.run with
      | Except.error e => ([], Except.error e)
      | Except.ok r =>
        if r.result_type = ResultType.FAILED then
          ([⟨s.name, s.description, StepOutcome.ran r⟩],
            Except.error (PyExc.ClickException r.message))
        else
          let res := runPlan rest
          (⟨s.name, s.description, StepOutcome.ran r⟩ :: res.1, res.2)

/-- The lazily-connected controller handle of JujuHelper; constructed only
when a helper operation first connects. -/
structure Controller where
  connected : Bool := true
deriving DecidableEq, Repr

/-- JujuHelper.disconnect_controller (juju.py lines 43-44): awaits
self.controller.disconnect() with no None guard, so when the lazy
connection was never established (the handle is still None) Python raises
AttributeError (NoneType has no attribute disconnect). -/
def JujuHelper.disconnect_controller (controller : Option Controller) :
    Except PyExc Unit :=
  match controller with
  | none => Except.error (PyExc.AttributeError "NoneType object has no attribute disconnect")
  | some _ => Except.ok ()

/-- The tail of the bootstrap command (bootstrap.py lines 167-189): run the
plan; when the loop finishes without a failure, disconnect the controller
handle unconditionally. -/
def bootstrap_run (plan : List StepModel) (controller : Option Controller) :
    List StepEvent × Except PyExc Unit :=
  let res := runPlan plan
  match res.2 with
  | Except.ok _ => (res.1, JujuHelper.disconnect_controller controller)
  | Except.error e => (res.1, Except.error e)

/-- The mutable state of JujuHelper.get_model_status's loop: the
apps_status mapping written so far (an association list, latest write
wins) and the apps_active set (a duplicate-free list). -/
structure StatusState where
  apps_status : List (String × String)
  apps_active : List String
deriving DecidableEq, Repr

/-- Write one key of the apps_status mapping, replacing an existing entry
or appending a new one. -/
def setStatus : List (String × String) → String → String → List (String × String)
  | [], a, s => [(a, s)]
  | (k, v) :: rest, a, s =>
    if k = a then (a, s) :: rest else (k, v) :: setStatus rest a s

/-- The body of the inner for loop of get_model_status (juju.py lines
104-109) for one application at poll i: when the model still knows the
application, record its status, and add it to apps_active when the status
is active. statusAt gives each application's status as observed at poll i
(none when model.applications.get returns None). -/
def observeApp (statusAt : Nat → String → Option String) (i : Nat)
    (st : StatusState) (a : String) : StatusState :=
  match statusAt i a with
  | none => st
  | some s =>
    { apps_status := setStatus st.apps_status a s
      apps_active :=
        if s = "active" && !(st.apps_active.contains a) then
          st.apps_active ++ [a]
        else st.apps_active }

/-- The while loop of get_model_status (juju.py lines 98-117), one unit of
time per iteration: sleep one unit (so poll i happens i units after start
and int(time.time() - start) is i), observe every application, stop when
every application is in apps_active, otherwise stop when i is greater than
timeout. The fuel argument only serves Lean's termination; timeout + 1
units always suffice because the loop stops at the first poll past the
timeout. Returns the final state and the number of polls executed. -/
def statusLoop (apps : List String) (statusAt : Nat → String → Option String)
    (timeout : Nat) : Nat → Nat → StatusState → StatusState × Nat
  | 0, i, st => (st, i - 1)
  | Nat.succ fuel, i, st =>
    let st' := apps.foldl (observeApp statusAt i) st
    if apps.length = st'.apps_active.length then (st', i)
    else if timeout < i then (st', i)
    else statusLoop apps statusAt timeout fuel (i + 1) st'

/-- JujuHelper.get_model_status (juju.py lines 82-121): the applications
known at entry are apps; the loop starts with empty apps_status and
apps_active and polls from poll 1. (The surrounding try swallows any
exception and returns the apps_status collected so far; the loop itself is
the object modelled.) -/
def get_model_status (apps : List String)
    (statusAt : Nat → String → Option String) (timeout : Nat) :
    StatusState × Nat :=
  statusLoop apps statusAt timeout (timeout + 1) 1 ⟨[], []⟩

/-- The wait loop of destroy_model (juju.py lines 181-190): up to remaining
more polls of the model list starting at poll i; when the model is absent
return True at once, otherwise sleep 10 units and poll again; when all
attempts are exhausted the for loop's else clause returns False. Returns
the outcome and the total number of polls executed (i plus the polls done
here when exhausted). presentAt states whether the model is still in the
model list at poll i. -/
def waitForRemoval (presentAt : Nat → Bool) : Nat → Nat → Bool × Nat
  | i, 0 => (false, i)
  | i, Nat.succ remaining =>
    if presentAt i then waitForRemoval presentAt (i + 1) remaining
    else (true, i + 1)

/-- JujuHelper.destroy_model (juju.py lines 166-194): request destruction
(an exception makes the whole call return False); with wait, poll the
model list up to 30 times starting at poll 0; without wait return True at
once. Returns the boolean the Python function returns, paired with the
number of list polls executed. -/
def destroy_model (destroyOutcome : Except PyExc Unit)
    (presentAt : Nat → Bool) (wait : Bool) : Bool × Nat :=
  match destroyOutcome with
  | Except.error _ => (false, 0)
  | Except.ok _ => if wait then waitForRemoval presentAt 0 30 else (true, 0)

/-- Claim C2: on a non-2xx response the decoded error text is matched, in
order, against the fixed table of four substrings (remote with name to
NodeAlreadyExists, the join-token text to NodeJoinFailed, the UNIQUE
constraint text to TokenAlreadyIssued, the daemon text to
ClusterServiceUnavailable); the first matching rule determines the single
classified fault raised, and when no rule matches the raw transport error
is re-raised unclassified. -/
theorem C2_error_translation_first_match (rawError error : String) :
    kindOf (request_onError rawError error) = firstMatch specErrorTable error
    ∧ (firstMatch specErrorTable error = none →
        request_onError rawError error = PyExc.HTTPError rawError) := by
  simp only [specErrorTable, firstMatch, request_onError]
  split_ifs <;> simp [kindOf]

/-- Claim C2 witness: an error text matched by no rule leaves the raw
transport error re-raised unclassified. -/
theorem C2_witness :
    kindOf (request_onError "500 Server Error" "some unrecognized failure") = none
    ∧ request_onError "500 Server Error" "some unrecognized failure" =
        PyExc.HTTPError "500 Server Error" := by
  have h := C2_error_translation_first_match "500 Server Error" "some unrecognized failure"
  exact ⟨h.1.trans (by rfl), h.2 (by rfl)⟩

/-- Claim C5: in each of ClusterInitStep, ClusterAddNodeStep and
ClusterJoinNodeStep, a membership probe that fails with
ClusterServiceUnavailableException makes is_skip return False without
raising. -/
theorem C5_cold_probe_not_skippable (fqdn node_name m : String) :
    ClusterInitStep.is_skip fqdn
      (Except.error (PyExc.ClusterServiceUnavailableException m)) = Except.ok false
    ∧ ClusterAddNodeStep.is_skip node_name
      (Except.error (PyExc.ClusterServiceUnavailableException m)) = Except.ok false
    ∧ ClusterJoinNodeStep.is_skip fqdn
      (Except.error (PyExc.ClusterServiceUnavailableException m)) = Except.ok false :=
  ⟨rfl, rfl, rfl⟩

/-- Claim C6: when add_node raises TokenAlreadyGeneratedException,
ClusterAddNodeStep.run returns (does not raise) a FAILED Result whose
message is the fault's text; in particular for the fault the service layer
mints from the daemon's UNIQUE constraint error the message is the fixed
descriptive string. -/
theorem C6_token_already_issued_is_failed :
    (∀ m : String,
      ClusterAddNodeStep.run (Except.error (PyExc.TokenAlreadyGeneratedException m)) =
        Except.ok { result_type := ResultType.FAILED, message := m })
    ∧ ClusterAddNodeStep.run
        (Except.error (request_onError "500 Server Error"
          "UNIQUE constraint failed: internal_token_records.name")) =
      Except.ok { result_type := ResultType.FAILED,
                  message := "Token already generated for the node" } :=
  ⟨fun _ => rfl, rfl⟩

/-- Claim C3 (failing input): on a successful join, ClusterJoinNodeStep.run
raises NameError (the undefined local token at clusterd.py line 153)
instead of returning a Result; ClusterAddNodeStep.run re-raises a
non-taxonomy fault instead of converting it to FAILED; and the runner has
no handler, so the fault escapes the plan unconverted. -/
theorem C3_unexpected_fault_escapes_run :
    ClusterJoinNodeStep.run (Except.ok ()) = Except.error (PyExc.NameError "token")
    ∧ ClusterAddNodeStep.run (Except.error (PyExc.HTTPError "boom")) =
        Except.error (PyExc.HTTPError "boom")
    ∧ (runPlan [⟨"Join node to Cluster", "Join node to microstack cluster",
          Except.ok false, ClusterJoinNodeStep.run (Except.ok ())⟩]).2 =
        Except.error (PyExc.NameError "token") :=
  ⟨rfl, rfl, rfl⟩

/-- Claim C10: disconnect_controller on a helper whose lazy connection was
never established (the controller handle is still None) raises
AttributeError rather than succeeding as a no-op, and the bootstrap
command, which calls it unconditionally after a plan that finishes without
failure, therefore ends in that error. -/
theorem C10_disconnect_without_connection_raises :
    JujuHelper.disconnect_controller none =
      Except.error (PyExc.AttributeError "NoneType object has no attribute disconnect")
    ∧ ∀ plan : List StepModel, (runPlan plan).2 = Except.ok () →
        (bootstrap_run plan none).2 =
          Except.error (PyExc.AttributeError "NoneType object has no attribute disconnect") := by
  refine ⟨rfl, fun plan h => ?_⟩
  simp only [bootstrap_run]
  rw [h]
  rfl

/-- Claim C10 witness: the empty plan finishes without failure and the
final unconditional disconnect raises. -/
theorem C10_witness :
    (bootstrap_run [] none).2 =
      Except.error (PyExc.AttributeError "NoneType object has no attribute disconnect") :=
  C10_disconnect_without_connection_raises.2 [] rfl

/-! Step lemmas for the runner loop. -/

theorem runPlan_cons_skip_raises (s : StepModel) (rest : List StepModel) (e : PyExc)
    (h : s.is_skip = Except.error e) : runPlan (s :: rest) = ([], Except.error e) := by
  unfold runPlan
  rw [h]

theorem runPlan_cons_skipped (s : StepModel) (rest : List StepModel)
    (h : s.is_skip = Except.ok true) :
    runPlan (s :: rest) =
      (⟨s.name, s.description, StepOutcome.skipped⟩ :: (runPlan rest).1, (runPlan rest).2) := by
  conv_lhs => rw [runPlan]
  rw [h]

theorem runPlan_cons_run_raises (s : StepModel) (rest : List StepModel) (e : PyExc)
    (hs : s.is_skip = Except.ok false) (hr : s.run = Except.error e) :
    runPlan (s :: rest) = ([], Except.error e) := by
  unfold runPlan
  rw [hs, hr]

theorem runPlan_cons_failed (s : StepModel) (rest : List StepModel) (r : Result)
    (hs : s.is_skip = Except.ok false) (hr : s.run = Except.ok r)
    (hf : r.result_type = ResultType.FAILED) :
    runPlan (s :: rest) =
      ([⟨s.name, s.description, StepOutcome.ran r⟩],
        Except.error (PyExc.ClickException r.message)) := by
  unfold runPlan
  rw [hs, hr]
  simp [hf]

theorem runPlan_cons_completed (s : StepModel) (rest : List StepModel) (r : Result)
    (hs : s.is_skip = Except.ok false) (hr : s.run = Except.ok r)
    (hf : ¬ r.result_type = ResultType.FAILED) :
    runPlan (s :: rest) =
      (⟨s.name, s.description, StepOutcome.ran r⟩ :: (runPlan rest).1, (runPlan rest).2) := by
  conv_lhs => rw [runPlan]
  rw [hs, hr]
  simp [hf]

/-- Claim C1: when a plan's prefix finishes without failure and the next
step's run returns a FAILED Result, the runner's whole output is the
prefix's progress events followed by the failing step's event, with the
failing step's description in that event and its message in the raised
ClickException; whatever follows the failing step (post is universally
quantified and absent from the result) is never consulted: no later
is_skip or run is invoked. -/
theorem C1_stops_at_first_failed (pre post : List StepModel) (s : StepModel) (r : Result)
    (hpre : (runPlan pre).2 = Except.ok ())
    (hskip : s.is_skip = Except.ok false)
    (hrun : s.run = Except.ok r)
    (hfail : r.result_type = ResultType.FAILED) :
    runPlan (pre ++ s :: post) =
      ((runPlan pre).1 ++ [⟨s.name, s.description, StepOutcome.ran r⟩],
        Except.error (PyExc.ClickException r.message)) := by
  induction pre with
  | nil =>
    simpa using runPlan_cons_failed s post r hskip hrun hfail
  | cons s0 pre ih =>
    cases hs0 : s0.is_skip with
    | error e =>
      rw [runPlan_cons_skip_raises s0 pre e hs0] at hpre
      simp at hpre
    | ok b =>
      cases b with
      | true =>
        rw [runPlan_cons_skipped s0 pre hs0] at hpre
        rw [List.cons_append, runPlan_cons_skipped s0 (pre ++ s :: post) hs0, ih hpre,
          runPlan_cons_skipped s0 pre hs0]
        simp
      | false =>
        cases hr0 : s0.run with
        | error e =>
          rw [runPlan_cons_run_raises s0 pre e hs0 hr0] at hpre
          simp at hpre
        | ok r0 =>
          by_cases hf0 : r0.result_type = ResultType.FAILED
          · rw [runPlan_cons_failed s0 pre r0 hs0 hr0 hf0] at hpre
            simp at hpre
          · rw [runPlan_cons_completed s0 pre r0 hs0 hr0 hf0] at hpre
            rw [List.cons_append, runPlan_cons_completed s0 (pre ++ s :: post) r0 hs0 hr0 hf0,
              ih hpre, runPlan_cons_completed s0 pre r0 hs0 hr0 hf0]
            simp

/-- Claim C1 witness: a three-step plan whose second step fails stops after
the second step; the third is never reached. -/
theorem C1_witness :
    runPlan
      [⟨"Bootstrap Juju", "Bootstrapping Juju into microk8s",
          Except.ok true, Except.ok { result_type := ResultType.COMPLETED }⟩,
       ⟨"Deploying OpenStack Control Plane",
          "Deploying OpenStack Control Plane to Kubernetes",
          Except.ok false, Except.ok { result_type := ResultType.FAILED,
                                       message := "Error configuring cloud" }⟩,
       ⟨"Model status", "Retrieving status of applications in model test",
          Except.ok false, Except.ok { result_type := ResultType.COMPLETED }⟩] =
      ([⟨"Bootstrap Juju", "Bootstrapping Juju into microk8s", StepOutcome.skipped⟩,
        ⟨"Deploying OpenStack Control Plane",
          "Deploying OpenStack Control Plane to Kubernetes",
          StepOutcome.ran { result_type := ResultType.FAILED,
                            message := "Error configuring cloud" }⟩],
       Except.error (PyExc.ClickException "Error configuring cloud")) := by
  have h := C1_stops_at_first_failed
    [⟨"Bootstrap Juju", "Bootstrapping Juju into microk8s",
        Except.ok true, Except.ok { result_type := ResultType.COMPLETED }⟩]
    [⟨"Model status", "Retrieving status of applications in model test",
        Except.ok false, Except.ok { result_type := ResultType.COMPLETED }⟩]
    ⟨"Deploying OpenStack Control Plane",
        "Deploying OpenStack Control Plane to Kubernetes",
        Except.ok false, Except.ok { result_type := ResultType.FAILED,
                                     message := "Error configuring cloud" }⟩
    { result_type := ResultType.FAILED, message := "Error configuring cloud" }
    rfl rfl rfl rfl
  simpa using h

/-- Claim C8: a step whose is_skip returns True is recorded as skipped and
execution continues with the rest of the plan in order; its run field does
not occur in the result, so run is never invoked. -/
theorem C8_skipped_step_never_runs (s : StepModel) (rest : List StepModel)
    (h : s.is_skip = Except.ok true) :
    runPlan (s :: rest) =
      (⟨s.name, s.description, StepOutcome.skipped⟩ :: (runPlan rest).1, (runPlan rest).2) :=
  runPlan_cons_skipped s rest h

/-- Claim C8 witness: a plan whose first step skips (its run would raise if
it were invoked) records the skip and runs the second step. -/
theorem C8_witness :
    runPlan
      [⟨"Bootstrap Cluster", "Bootstrapping microstack cluster",
          Except.ok true, Except.error (PyExc.NameError "never_evaluated")⟩,
       ⟨"Create model", "Creating test model",
          Except.ok false, Except.ok { result_type := ResultType.COMPLETED }⟩] =
      ([⟨"Bootstrap Cluster", "Bootstrapping microstack cluster", StepOutcome.skipped⟩,
        ⟨"Create model", "Creating test model",
          StepOutcome.ran { result_type := ResultType.COMPLETED }⟩],
       Except.ok ()) := by
  have h := C8_skipped_step_never_runs
    ⟨"Bootstrap Cluster", "Bootstrapping microstack cluster",
        Except.ok true, Except.error (PyExc.NameError "never_evaluated")⟩
    [⟨"Create model", "Creating test model",
        Except.ok false, Except.ok { result_type := ResultType.COMPLETED }⟩]
    rfl
  simpa using h

/-! Lemmas for the destroy_model wait loop. -/

theorem waitForRemoval_exhausted (presentAt : Nat → Bool) :
    ∀ remaining i, (∀ k, k < remaining → presentAt (i + k) = true) →
      waitForRemoval presentAt i remaining = (false, i + remaining) := by
  intro remaining
  induction remaining with
  | zero => intro i _; simp [waitForRemoval]
  | succ n ih =>
    intro i h
    have h0 : presentAt i = true := by simpa using h 0 (Nat.succ_pos n)
    unfold waitForRemoval
    rw [h0]
    simp only [if_true]
    have hrec := ih (i + 1) (fun k hk => by
      rw [show i + 1 + k = i + (k + 1) by omega]
      exact h (k + 1) (by omega))
    rw [hrec, show i + 1 + n = i + (n + 1) by omega]

theorem waitForRemoval_found (presentAt : Nat → Bool) :
    ∀ remaining i k, k < remaining → presentAt (i + k) = false →
      (∀ j, j < k → presentAt (i + j) = true) →
      waitForRemoval presentAt i remaining = (true, i + k + 1) := by
  intro remaining
  induction remaining with
  | zero => intro i k hk; exact absurd hk (Nat.not_lt_zero k)
  | succ n ih =>
    intro i k hk hfalse hprev
    cases h0 : presentAt i with
    | true =>
      have hkpos : 0 < k := by
        rcases Nat.eq_zero_or_pos k with hz | hp
        · subst hz; rw [Nat.add_zero, h0] at hfalse; cases hfalse
        · exact hp
      unfold waitForRemoval
      rw [h0]
      simp only [if_true]
      have hrec := ih (i + 1) (k - 1) (by omega)
        (by rw [show i + 1 + (k - 1) = i + k by omega]; exact hfalse)
        (fun j hj => by
          rw [show i + 1 + j = i + (j + 1) by omega]
          exact hprev (j + 1) (by omega))
      rw [hrec, show i + 1 + (k - 1) + 1 = i + k + 1 by omega]
    | false =>
      have hk0 : k = 0 := by
        by_contra hne
        have := hprev 0 (by omega)
        rw [Nat.add_zero, h0] at this
        cases this
      subst hk0
      unfold waitForRemoval
      rw [h0]
      simp

/-- Claim C7: destroy_model with wait terminates within the fixed retry
budget: it polls the model list at most 30 times, returns True exactly
when some poll among the first 30 finds the model absent (and does so at
the first such poll), and returns False rather than hanging when the model
is still present at all 30 polls. -/
theorem C7_destroy_model_retry_budget (presentAt : Nat → Bool) :
    ((destroy_model (Except.ok ()) presentAt true).1 = true ↔
      ∃ i, i < 30 ∧ presentAt i = false)
    ∧ (destroy_model (Except.ok ()) presentAt true).2 ≤ 30
    ∧ ∀ i, i < 30 → presentAt i = false → (∀ j, j < i → presentAt j = true) →
        destroy_model (Except.ok ()) presentAt true = (true, i + 1) := by
  have hfind : (∃ i, i < 30 ∧ presentAt i = false) →
      ∃ i, i < 30 ∧ presentAt i = false ∧ ∀ j, j < i → presentAt j = true := by
    intro h
    have hex : ∃ i, presentAt i = false := by
      obtain ⟨i, _, hi⟩ := h
      exact ⟨i, hi⟩
    refine ⟨Nat.find hex, ?_, Nat.find_spec hex, ?_⟩
    · obtain ⟨i, hi, hfi⟩ := h
      exact lt_of_le_of_lt (Nat.find_min' hex hfi) hi
    · intro j hj
      have := Nat.find_min hex hj
      revert this
      cases presentAt j <;> simp
  constructor
  · constructor
    · intro htrue
      by_contra hnone
      push_neg at hnone
      have hall : ∀ k, k < 30 → presentAt (0 + k) = true := by
        intro k hk
        rw [Nat.zero_add]
        have := hnone k hk
        revert this
        cases presentAt k <;> simp
      have := waitForRemoval_exhausted presentAt 30 0 hall
      simp only [destroy_model, if_true] at htrue
      rw [this] at htrue
      cases htrue
    · intro hex
      obtain ⟨i, hi, hfi, hmin⟩ := hfind hex
      have := waitForRemoval_found presentAt 30 0 i hi
        (by rw [Nat.zero_add]; exact hfi)
        (fun j hj => by rw [Nat.zero_add]; exact hmin j hj)
      simp only [destroy_model, if_true]
      rw [this]
  constructor
  · by_cases hex : ∃ i, i < 30 ∧ presentAt i = false
    · obtain ⟨i, hi, hfi, hmin⟩ := hfind hex
      have := waitForRemoval_found presentAt 30 0 i hi
        (by rw [Nat.zero_add]; exact hfi)
        (fun j hj => by rw [Nat.zero_add]; exact hmin j hj)
      simp only [destroy_model, if_true]
      rw [this]
      simpa using by omega
    · push_neg at hex
      have hall : ∀ k, k < 30 → presentAt (0 + k) = true := by
        intro k hk
        rw [Nat.zero_add]
        have := hex k hk
        revert this
        cases presentAt k <;> simp
      have := waitForRemoval_exhausted presentAt 30 0 hall
      simp only [destroy_model, if_true]
      rw [this]
  · intro i hi hfi hmin
    have := waitForRemoval_found presentAt 30 0 i hi
      (by rw [Nat.zero_add]; exact hfi)
      (fun j hj => by rw [Nat.zero_add]; exact hmin j hj)
    simp only [destroy_model, if_true]
    rw [this, Nat.zero_add]

/-- Claim C7 witness: a model removed at the third poll yields True after
3 polls; the theorem applied to a model that is never removed would give
False after 30 polls. -/
theorem C7_witness :
    destroy_model (Except.ok ()) (fun i => decide (i < 2)) true = (true, 3) := by
  have h := (C7_destroy_model_retry_budget (fun i => decide (i < 2))).2.2 2
    (by omega) (by simp) (fun j hj => by simpa using hj)
  exact h

/-- Loop invariant of get_model_status: started at poll i with enough fuel
to reach the first poll past the timeout, the loop stops at a poll between
i and timeout + 1, and at the stopping poll either every application is in
apps_active or the stopping poll is exactly timeout + 1 (the first poll
whose elapsed time exceeds the timeout). -/
theorem statusLoop_poll_bound (apps : List String)
    (statusAt : Nat → String → Option String) (timeout : Nat) :
    ∀ fuel i st, i + fuel = timeout + 2 → 1 ≤ fuel →
      (statusLoop apps statusAt timeout fuel i st).2 ≤ timeout + 1
      ∧ i ≤ (statusLoop apps statusAt timeout fuel i st).2
      ∧ (apps.length = (statusLoop apps statusAt timeout fuel i st).1.apps_active.length
         ∨ (statusLoop apps statusAt timeout fuel i st).2 = timeout + 1) := by
  intro fuel
  induction fuel with
  | zero => intro i st _ hfuel; exact absurd hfuel (by omega)
  | succ n ih =>
    intro i st hinv _
    unfold statusLoop
    by_cases hconv :
        apps.length = (apps.foldl (observeApp statusAt i) st).apps_active.length
    · rw [if_pos hconv]
      exact ⟨by omega, le_refl i, Or.inl hconv⟩
    · simp only [if_neg hconv]
      by_cases htime : timeout < i
      · simp only [htime, if_true]
        exact ⟨by omega, le_refl i, Or.inr (by omega)⟩
      · simp only [if_neg htime]
        have hn : 1 ≤ n := by omega
        have hrec := ih (i + 1) (apps.foldl (observeApp statusAt i) st) (by omega) hn
        exact ⟨hrec.1, by omega, hrec.2.2⟩

/-- Claim C4 counterexample: get_model_status called with timeout 0 on a
model with one application that never reports active stops after a single
poll, returning the collected statuses, with the application not active:
the claim that with timeout 0 it polls until converged and never stops
before every application is active is false of the code. -/
theorem C4_counterexample :
    (get_model_status ["app1"] (fun _ _ => some "blocked") 0).2 = 1
    ∧ ¬ (["app1"] : List String).length =
        (get_model_status ["app1"] (fun _ _ => some "blocked") 0).1.apps_active.length
    ∧ (get_model_status ["app1"] (fun _ _ => some "blocked") 0).1.apps_status =
        [("app1", "blocked")] := by
  refine ⟨rfl, by decide, rfl⟩

/-- Claim C4 as amended: get_model_status polls the applications once per
1-time-unit interval and stops either when every known application has
been observed active or at the first poll past the timeout (at most
timeout + 1 polls, one interval of slack); in particular with timeout 0 it
executes exactly one poll and returns the statuses collected so far even
when not converged. -/
theorem C4_amended_bounded_polling (apps : List String)
    (statusAt : Nat → String → Option String) (timeout : Nat) :
    1 ≤ (get_model_status apps statusAt timeout).2
    ∧ (get_model_status apps statusAt timeout).2 ≤ timeout + 1
    ∧ (apps.length = (get_model_status apps statusAt timeout).1.apps_active.length
       ∨ (get_model_status apps statusAt timeout).2 = timeout + 1) := by
  have h := statusLoop_poll_bound apps statusAt timeout (timeout + 1) 1 ⟨[], []⟩
    (by omega) (by omega)
  exact ⟨h.2.1, h.1, h.2.2⟩

/-- Claim C9: every FAILED Result produced by the embedded run methods
carries a non-empty message. Each FAILED message is str(e) of the caught
fault, so the invariant is stated under the assumption that the fault's
rendered text is non-empty; the first conjunct shows that every fault the
service layer's error translation raises has non-empty text whenever the
raw transport error does (the four classified faults carry fixed non-empty
literals). -/
theorem C9_failed_message_nonempty :
    (∀ rawError error, rawError ≠ "" → (request_onError rawError error).str ≠ "")
    ∧ (∀ o : Except PyExc Unit, (∀ e, o = Except.error e → e.str ≠ "") →
        (ClusterInitStep.run o).result_type = ResultType.FAILED →
        (ClusterInitStep.run o).message ≠ "")
    ∧ (∀ (o : Except PyExc String) (r : Result), (∀ e, o = Except.error e → e.str ≠ "") →
        ClusterAddNodeStep.run o = Except.ok r →
        r.result_type = ResultType.FAILED → r.message ≠ "")
    ∧ (∀ (o : Except PyExc Unit) (r : Result), (∀ e, o = Except.error e → e.str ≠ "") →
        ClusterJoinNodeStep.run o = Except.ok r →
        r.result_type = ResultType.FAILED → r.message ≠ "")
    ∧ (∀ (a w : Except PyExc Unit) (r : Result),
        (∀ e, a = Except.error e → e.str ≠ "") → (∀ e, w = Except.error e → e.str ≠ "") →
        DeployControlPlaneStep.run a w = Except.ok r →
        r.result_type = ResultType.FAILED → r.message ≠ "")
    ∧ (∀ o : Except PyExc (List (String × String)),
        (∀ e, o = Except.error e → e.str ≠ "") →
        (ModelStatusStep.run o).result_type = ResultType.FAILED →
        (ModelStatusStep.run o).message ≠ "") := by
  refine ⟨?_, ?_, ?_, ?_, ?_, ?_⟩
  · intro rawError error hraw
    unfold request_onError
    split_ifs <;> simp only [PyExc.str] <;> first | decide | exact hraw
  · intro o h hf
    cases o with
    | ok u => simp [ClusterInitStep.run] at hf
    | error e => simpa [ClusterInitStep.run] using h e rfl
  · intro o r h hrun hf
    cases o with
    | ok t =>
      simp only [ClusterAddNodeStep.run, Except.ok.injEq] at hrun
      rw [← hrun] at hf
      simp at hf
    | error e =>
      cases e <;> simp only [ClusterAddNodeStep.run, Except.ok.injEq,
        reduceCtorEq] at hrun
      case TokenAlreadyGeneratedException m =>
        rw [← hrun]
        simpa [PyExc.str] using h (PyExc.TokenAlreadyGeneratedException m) rfl
  · intro o r h hrun hf
    cases o with
    | ok u =>
      simp only [ClusterJoinNodeStep.run, reduceCtorEq] at hrun
    | error e =>
      cases e <;> simp only [ClusterJoinNodeStep.run, Except.ok.injEq,
        reduceCtorEq] at hrun
      case NodeAlreadyExistsException m =>
        rw [← hrun]
        simpa [PyExc.str] using h (PyExc.NodeAlreadyExistsException m) rfl
      case NodeJoinException m =>
        rw [← hrun]
        simpa [PyExc.str] using h (PyExc.NodeJoinException m) rfl
  · intro a w r ha hw hrun hf
    cases a with
    | error e =>
      cases e <;> simp only [DeployControlPlaneStep.run, Except.ok.injEq,
        reduceCtorEq] at hrun
      case TerraformException m =>
        rw [← hrun]
        simpa [PyExc.str] using ha (PyExc.TerraformException m) rfl
    | ok u =>
      cases w with
      | ok v =>
        simp only [DeployControlPlaneStep.run, Except.ok.injEq] at hrun
        rw [← hrun] at hf
        simp at hf
      | error e =>
        cases e <;> simp only [DeployControlPlaneStep.run, Except.ok.injEq,
          reduceCtorEq] at hrun
        case TerraformException m =>
          rw [← hrun]
          simpa [PyExc.str] using hw (PyExc.TerraformException m) rfl
  · intro o h hf
    cases o with
    | ok st => simp [ModelStatusStep.run] at hf
    | error e => simpa [ModelStatusStep.run] using h e rfl

/-- Claim C9 witness: the FAILED Result ClusterInitStep.run produces when
bootstrap raises the service layer's ClusterServiceUnavailableException
carries its fixed non-empty message. -/
theorem C9_witness :
    (ClusterInitStep.run (Except.error
        (PyExc.ClusterServiceUnavailableException "Microstack Cluster not initialized"))).message
      ≠ "" :=
  C9_failed_message_nonempty.2.1
    (Except.error (PyExc.ClusterServiceUnavailableException "Microstack Cluster not initialized"))
    (fun e he => (Except.error.inj he) ▸
      (show (PyExc.ClusterServiceUnavailableException "Microstack Cluster not initialized").str ≠ ""
        by decide))
    rfl

end Sunbeam
